import Mathlib

/-!
Shallow embedding of the Weatherman repository's alert-decision engine.

`src/rain_alert.py` is the stateful rain/cold alert program; `src/weather_push.py`
contains the daily-summary program and the `ow_onecall` weather fetch.
Temperatures are modelled as rationals (exact values of the JSON numbers),
Python's `round` as round-half-to-even on rationals, and fallible dictionary
accesses (`data["current"]["temp"]`) as `Option` fields whose absence aborts
the run with an error, mirroring a `KeyError`.
-/

/-- One delivered push notification: the `(title, message, priority)` tuple
passed to `send_push` in `src/rain_alert.py`. -/
structure Notification where
  title : String
  message : String
  priority : ℤ
deriving Repr, DecidableEq

/-- The persisted alert state (`.state/alert_state.json`): `load_state` defaults
to `rain_alerted = False`, `last_feels_like = None` on first run.  The program
only ever stores the rounded feels-like, hence `Option ℤ`. -/
structure AlertState where
  rain_alerted : Bool
  last_feels_like : Option ℤ
deriving Repr, DecidableEq

/-- One entry of the `hourly` array.  `hasRainKey` models the dictionary-key
test `"rain" in h`; `weather` holds the `"main"` strings of the entry's
`weather` list; `dt` is the unix timestamp. -/
structure HourlyPoint where
  dt : ℤ
  hasRainKey : Bool
  weather : List String
deriving Repr, DecidableEq

/-- The `current` object of the snapshot; `temp` and `feels_like` are `Option`
because `data["current"]["temp"]` / `["feels_like"]` raise when absent. -/
structure CurrentConditions where
  temp : Option ℚ
  feels_like : Option ℚ
deriving Repr, DecidableEq

/-- The decoded weather snapshot.  Both `current` and `hourly` may be absent
from the JSON: `rain_alert.py` reads `data.get("hourly", [])` (defaulting) but
`data["current"]` (raising). -/
structure WeatherData where
  current : Option CurrentConditions
  hourly : Option (List HourlyPoint)
deriving Repr, DecidableEq

/-- Floor of a rational, computed as floor division of numerator by
denominator (the denominator is positive). -/
def ratFloor (q : ℚ) : ℤ :=
  q.num.fdiv q.den

/-- Python's `round` on an exact rational: round to nearest, half to even
(`round(0.5) = 0`, `round(1.5) = 2`, `round(-0.5) = 0`).  With `n = ⌊q⌋` and
remainder `r = num - n * den` (so the fractional part is `r / den`), the
fractional part is compared against `1/2` by comparing `2 * r` with `den`. -/
def pyRound (q : ℚ) : ℤ :=
  let n := ratFloor q
  let r := q.num - n * q.den
  if 2 * r < (q.den : ℤ) then n
  else if (q.den : ℤ) < 2 * r then n + 1
  else if n % 2 = 0 then n else n + 1

/-- `is_quiet_hours` from `rain_alert.py`: `QUIET_START <= hour or hour < QUIET_END`
with `QUIET_START = 23`, `QUIET_END = 6`. -/
def is_quiet_hours (hour : ℤ) : Bool :=
  decide (23 ≤ hour) || decide (hour < 6)

/-- `crossed(prev, curr, threshold)` from `rain_alert.py`:
`prev is not None and prev > threshold >= curr`.  Polymorphic over the ordered
numeric type, as the Python function is; the program calls it on the rounded
integers. -/
def crossed {α : Type} [LinearOrder α] (prev : Option α) (curr threshold : α) : Bool :=
  match prev with
  | none => false
  | some p => decide (threshold < p) && decide (curr ≤ threshold)

/-- `COLD_THRESHOLDS`: the fixed `(threshold, title, advice)` table, listed in
the source from high temperature to low. -/
def COLD_THRESHOLDS : List (ℤ × String × String) :=
  [ (15, "🧥 Cool Weather Alert", "A light jacket may be useful."),
    (10, "❄️ Cold Weather Alert", "Dress warmly if heading out."),
    (5, "🧊 Very Cold Alert", "Cold conditions expected. Bundle up."),
    (0, "🥶 Freezing Alert", "Risk of frost or icy surfaces.") ]

/-- `sorted(COLD_THRESHOLDS, reverse=True)`: sort descending by the threshold
value (the tuple's first component; all values are distinct, so the comparison
never reaches the strings). -/
def sortedDesc (xs : List (ℤ × String × String)) : List (ℤ × String × String) :=
  List.insertionSort (fun a b => b.1 ≤ a.1) xs

/-- The selection loop of `rain_alert.py` lines 118-121: scan
`sorted(COLD_THRESHOLDS, reverse=True)` and keep the first tuple whose
threshold is `crossed`, then `break`. -/
def selectAlert (last : Option ℤ) (feels : ℤ) : Option (ℤ × String × String) :=
  (sortedDesc COLD_THRESHOLDS).find? (fun t => crossed last feels t.1)

/-- The cold-alert message body. -/
def coldMessage (currentTemp feels : ℤ) (advice : String) : String :=
  "Current: " ++ toString currentTemp ++ "°C\nFeels like: " ++ toString feels
    ++ "°C\n\n" ++ advice

/-- The cold-alert section of `rain_alert.py` (lines 115-138): select at most
one crossed threshold, then send it unless
`is_quiet_hours(hour) and threshold > 0`, with
`priority = 2 if threshold <= 0 else 1`.  Returns the notifications sent. -/
def coldStep (hour : ℤ) (currentTemp feels : ℤ) (last : Option ℤ) : List Notification :=
  match selectAlert last feels with
  | none => []
  | some (threshold, title, advice) =>
    if !(is_quiet_hours hour && decide (0 < threshold)) then
      [⟨title, coldMessage currentTemp feels advice, if threshold ≤ 0 then 2 else 1⟩]
    else []

/-- A point counts as rain if the `"rain"` key is present or some weather
entry's `main` lower-cases to `"rain"` (line 94). -/
def isRainPoint (h : HourlyPoint) : Bool :=
  h.hasRainKey || h.weather.any (fun w => w.toLower == "rain")

/-- The loop over `data.get("hourly", [])[:2]` with `break`: the first of the
first two hourly points that counts as rain. -/
def rainScan (hourly : List HourlyPoint) : Option HourlyPoint :=
  (hourly.take 2).find? isRainPoint

/-- `rain_soon` after the scan loop. -/
def rainSoon (hourly : List HourlyPoint) : Bool :=
  (rainScan hourly).isSome

/-- Rendering of the matched point's timestamp as a local-time string
(`strftime` on the configured time zone).  The textual rendering is out of
scope; no claim depends on it. -/
def fmtTime (dt : ℤ) : String :=
  toString dt

/-- `rain_time` as used in the message: the formatted timestamp of the first
matching point (the Python variable stays `None` when no point matched). -/
def rainTimeString : Option HourlyPoint → String
  | some h => fmtTime h.dt
  | none => ""

/-- The rain-alert message body. -/
def rainMessage (t : String) : String :=
  "Rain expected around " ++ t ++ ".\nTake an umbrella ☔"

/-- The rain-alert section of `rain_alert.py` (lines 90-108): fire on
`rain_soon and not state["rain_alerted"]` with priority 1, set the flag on
fire, clear it when `not rain_soon`.  Returns the notifications sent and the
updated in-memory state. -/
def rainStep (hourly : List HourlyPoint) (st : AlertState) : List Notification × AlertState :=
  let soon := rainSoon hourly
  let fire := soon && !st.rain_alerted
  let notifs : List Notification :=
    if fire then [⟨"🌧️ Rain Alert", rainMessage (rainTimeString (rainScan hourly)), 1⟩]
    else []
  let ra1 := if fire then true else st.rain_alerted
  let ra2 := if !soon then false else ra1
  (notifs, { st with rain_alerted := ra2 })

/-- Outcome of one invocation of `rain_alert.py`: the notifications that were
posted (sends happen immediately, so they survive a later abort) and either
the state passed to `save_state` or the error that aborted the run before
`save_state`. -/
structure RunResult where
  sent : List Notification
  outcome : Except String AlertState
deriving Repr

/-- One full invocation of `rain_alert.py` after the fetch: rain section,
then `current_temp = round(data["current"]["temp"])`,
`current_feels = round(data["current"]["feels_like"])` (each a `KeyError`
abort when absent), the cold section, and finally
`state["last_feels_like"] = current_feels` followed by `save_state`. -/
def runInvocation (d : WeatherData) (hour : ℤ) (st : AlertState) : RunResult :=
  let rs := rainStep (d.hourly.getD []) st
  match d.current with
  | none => ⟨rs.1, Except.error "KeyError: current"⟩
  | some c =>
    match c.temp with
    | none => ⟨rs.1, Except.error "KeyError: temp"⟩
    | some t =>
      match c.feels_like with
      | none => ⟨rs.1, Except.error "KeyError: feels_like"⟩
      | some f =>
        ⟨rs.1 ++ coldStep hour (pyRound t) (pyRound f) rs.2.last_feels_like,
          Except.ok { rs.2 with last_feels_like := some (pyRound f) }⟩

/-- The on-disk state after the run: `save_state` runs only at the end of a
successful invocation, so an aborted run leaves the loaded state in place. -/
def persistedState (st : AlertState) (r : RunResult) : AlertState :=
  match r.outcome with
  | Except.ok s => s
  | Except.error _ => st

/-- A decoded response of the weather fetch in `src/weather_push.py`:
HTTP status plus the parsed body. -/
structure OWReply where
  status : ℤ
  body : WeatherData
deriving Repr, DecidableEq

/-- `ow_onecall` from `src/weather_push.py` (lines 53-64): raise on a
non-200 status, raise when `"hourly" not in data`, otherwise return the data. -/
def ow_onecall (r : OWReply) : Except String WeatherData :=
  if r.status ≠ 200 then Except.error "OpenWeather HTTP error"
  else
    match r.body.hourly with
    | none => Except.error "OpenWeather response missing hourly"
    | some _ => Except.ok r.body

/-- With a selected alert `(t, title, advice)`, the cold section sends nothing
when `is_quiet_hours hour` and `0 < t`, and otherwise sends exactly that alert
with priority `2` for `t ≤ 0` and `1` otherwise. -/
lemma coldStep_sel (hour ct cf t : ℤ) (last : Option ℤ) (title advice : String)
    (hsel : selectAlert last cf = some (t, title, advice)) :
    coldStep hour ct cf last =
      if is_quiet_hours hour ∧ 0 < t then []
      else [⟨title, coldMessage ct cf advice, if t ≤ 0 then 2 else 1⟩] := by
  simp only [coldStep, hsel]
  by_cases h : is_quiet_hours hour ∧ 0 < t
  · rw [if_pos h]
    simp [h.1, h.2]
  · rw [if_neg h]
    by_cases hq : is_quiet_hours hour = true
    · have ht : ¬ (0 < t) := fun ht => h ⟨hq, ht⟩
      simp [hq, ht]
    · simp only [Bool.not_eq_true] at hq
      simp [hq]

/-- Claim C1.  The claim (and the code's own comments) say the selection loop
checks the MOST severe (lowest-valued) threshold first, so that prev = 16,
curr = -3 yields the 0° Freezing alert.  The code sorts with
`sorted(COLD_THRESHOLDS, reverse=True)`, i.e. highest value first, so at that
input it selects the 15° Cool alert instead and, outside quiet hours, sends it
with normal priority. -/
theorem cold_selection_least_severe_first_bug :
    selectAlert (some 16) (-3) =
      some (15, "🧥 Cool Weather Alert", "A light jacket may be useful.") ∧
    coldStep 12 (-2) (-3) (some 16) =
      [⟨"🧥 Cool Weather Alert", coldMessage (-2) (-3) "A light jacket may be useful.", 1⟩] ∧
    (15 : ℤ) ≠ 0 := by
  exact ⟨rfl, rfl, by decide⟩

/-- Claim C2.  The crossing rule: `crossed prev curr T` holds iff `prev` is
non-null, `prev > T` and `curr ≤ T`; it never holds with `prev = None`
(hence the cold section sends nothing on the first invocation), never when
`prev ≤ T` (already at or below, so no re-fire while staying below) and never
when `curr > T` (still above). -/
theorem crossing_rule_characterization (prev : Option ℚ) (curr T : ℚ) :
    (crossed prev curr T = true ↔ ∃ p, prev = some p ∧ T < p ∧ curr ≤ T) ∧
    crossed (none : Option ℚ) curr T = false ∧
    (∀ p : ℚ, p ≤ T → crossed (some p) curr T = false) ∧
    (T < curr → crossed prev curr T = false) ∧
    (∀ hour ct cf : ℤ, coldStep hour ct cf none = []) := by
  refine ⟨?_, rfl, ?_, ?_, fun _ _ _ => rfl⟩
  · cases prev with
    | none => simp [crossed]
    | some p => simp [crossed]
  · intro p hp
    have h : ¬ (T < p) := not_lt.mpr hp
    simp [crossed, h]
  · intro h
    cases prev with
    | none => rfl
    | some p =>
      have h2 : ¬ (curr ≤ T) := not_le.mpr h
      simp [crossed, h2]

/-- Witness for C2 at concrete readings: prev = 3 ≤ T = 4 gives no crossing,
and curr = 6 > T = 4 gives no crossing. -/
theorem crossing_rule_characterization_witness :
    crossed (some (3 : ℚ)) 3 4 = false ∧ crossed (some (5 : ℚ)) 6 4 = false :=
  ⟨(crossing_rule_characterization (some 3) 3 4).2.2.1 3 (by decide),
   (crossing_rule_characterization (some 5) 6 4).2.2.2.1 (by decide)⟩

/-- Claim C3.  Quiet hours are exactly `hour ≥ 23 ∨ hour < 6`; a selected
alert is suppressed iff during quiet hours with threshold value > 0; a
selected freezing-range alert (value ≤ 0) is always sent; outside quiet hours
every selected alert is sent. -/
theorem quiet_hours_suppression (hour ct cf t : ℤ) (last : Option ℤ)
    (title advice : String)
    (hsel : selectAlert last cf = some (t, title, advice)) :
    (is_quiet_hours hour = true ↔ 23 ≤ hour ∨ hour < 6) ∧
    (coldStep hour ct cf last = [] ↔ is_quiet_hours hour = true ∧ 0 < t) ∧
    (t ≤ 0 → coldStep hour ct cf last = [⟨title, coldMessage ct cf advice, 2⟩]) ∧
    (is_quiet_hours hour = false →
      coldStep hour ct cf last =
        [⟨title, coldMessage ct cf advice, if t ≤ 0 then 2 else 1⟩]) := by
  have hrw := coldStep_sel hour ct cf t last title advice hsel
  refine ⟨by simp [is_quiet_hours], ?_, ?_, ?_⟩
  · rw [hrw]
    by_cases h : is_quiet_hours hour ∧ 0 < t
    · simp [h]
    · rw [if_neg h]
      simp [h]
  · intro ht
    rw [hrw, if_neg, if_pos ht]
    rintro ⟨_, ht2⟩
    omega
  · intro hq
    rw [hrw, if_neg]
    rintro ⟨h1, _⟩
    rw [hq] at h1
    cases h1

/-- Witness for C3 at the spec's own scenario: prev = 6, curr = 4 selects the
5° Very Cold alert, and at hour 2 (quiet hours, threshold > 0) nothing is
sent. -/
theorem quiet_hours_suppression_witness :
    coldStep 2 4 4 (some 6) = [] :=
  ((quiet_hours_suppression 2 4 4 5 (some 6) "🧊 Very Cold Alert"
      "Cold conditions expected. Bundle up." rfl).2.1).mpr (by decide)

/-- Counterexample to C4 as stated: the claim says a freezing-range alert is
sent with priority 1 (high) and others with 0 (normal); at prev = 1,
curr = 0, hour = 14 the selected 0° Freezing alert is actually sent with
priority 2, not 1. -/
theorem freezing_priority_counterexample :
    (coldStep 14 0 0 (some 1)).map Notification.priority = [2] ∧ (2 : ℤ) ≠ 1 :=
  ⟨rfl, by decide⟩

/-- Claim C4 amended: every cold notification that is sent carries priority 2
(the channel's emergency-class value) when the selected threshold value is
≤ 0, and priority 1 (high) when it is > 0. -/
theorem cold_priority_mapping (hour ct cf t : ℤ) (last : Option ℤ)
    (title advice : String) (n : Notification)
    (hsel : selectAlert last cf = some (t, title, advice))
    (hmem : n ∈ coldStep hour ct cf last) :
    n.priority = if t ≤ 0 then 2 else 1 := by
  rw [coldStep_sel hour ct cf t last title advice hsel] at hmem
  by_cases h : is_quiet_hours hour ∧ 0 < t
  · rw [if_pos h] at hmem
    cases hmem
  · rw [if_neg h] at hmem
    rw [List.mem_singleton] at hmem
    rw [hmem]

/-- Witness for C4 (amended) at the freezing alert sent for prev = 1,
curr = 0 at hour 14. -/
theorem cold_priority_mapping_witness :
    (⟨"🥶 Freezing Alert", coldMessage 0 0 "Risk of frost or icy surfaces.", 2⟩ :
        Notification).priority = if (0 : ℤ) ≤ 0 then 2 else 1 :=
  cold_priority_mapping 14 0 0 0 (some 1) "🥶 Freezing Alert"
    "Risk of frost or icy surfaces." _ rfl (by decide)

/-- Counterexample to C5 as stated: with the `current` object missing and
rain in the first hourly point, the run does abort, but only after the rain
section has already posted a rain notification — so it is not the case that
"no rain or cold notification is sent". -/
theorem missing_current_rain_sent_counterexample :
    (runInvocation ⟨none, some [⟨0, true, []⟩]⟩ 12 ⟨false, none⟩).sent =
      [⟨"🌧️ Rain Alert", rainMessage (fmtTime 0), 1⟩] ∧
    (runInvocation ⟨none, some [⟨0, true, []⟩]⟩ 12 ⟨false, none⟩).outcome =
      Except.error "KeyError: current" :=
  ⟨rfl, rfl⟩

/-- Claim C5 amended: a snapshot lacking a required numeric field in current
conditions aborts the invocation before the COLD alert logic: the run errors
(no default is substituted), no state is persisted, and the notifications
sent are exactly those of the rain section, which runs first. -/
theorem missing_fields_abort (d : WeatherData) (hour : ℤ) (st : AlertState)
    (hmiss : d.current = none ∨
      ∃ c, d.current = some c ∧ (c.temp = none ∨ c.feels_like = none)) :
    (∃ e, (runInvocation d hour st).outcome = Except.error e) ∧
    persistedState st (runInvocation d hour st) = st ∧
    (runInvocation d hour st).sent = (rainStep (d.hourly.getD []) st).1 := by
  have key : ∃ e, (runInvocation d hour st).outcome = Except.error e ∧
      (runInvocation d hour st).sent = (rainStep (d.hourly.getD []) st).1 := by
    rcases hmiss with hc | ⟨c, hc, hf⟩
    · exact ⟨"KeyError: current", by simp [runInvocation, hc],
        by simp [runInvocation, hc]⟩
    · rcases hf with ht | hf
      · exact ⟨"KeyError: temp", by simp [runInvocation, hc, ht],
          by simp [runInvocation, hc, ht]⟩
      · cases htv : c.temp with
        | none =>
          exact ⟨"KeyError: temp", by simp [runInvocation, hc, htv],
            by simp [runInvocation, hc, htv]⟩
        | some t =>
          exact ⟨"KeyError: feels_like", by simp [runInvocation, hc, htv, hf],
            by simp [runInvocation, hc, htv, hf]⟩
  obtain ⟨e, he, hs⟩ := key
  exact ⟨⟨e, he⟩, by simp [persistedState, he], hs⟩

/-- Witness for C5 (amended) at the counterexample input: missing `current`,
rain in the lookahead. -/
theorem missing_fields_abort_witness :
    (∃ e, (runInvocation ⟨none, some [⟨0, true, []⟩]⟩ 12
        ⟨false, none⟩).outcome = Except.error e) ∧
    persistedState ⟨false, none⟩
        (runInvocation ⟨none, some [⟨0, true, []⟩]⟩ 12 ⟨false, none⟩) =
      ⟨false, none⟩ ∧
    (runInvocation ⟨none, some [⟨0, true, []⟩]⟩ 12 ⟨false, none⟩).sent =
      (rainStep ((some [(⟨0, true, []⟩ : HourlyPoint)]).getD []) ⟨false, none⟩).1 :=
  missing_fields_abort ⟨none, some [⟨0, true, []⟩]⟩ 12 ⟨false, none⟩ (Or.inl rfl)

/-- Claim C6: every invocation that completes persists
`last_feels_like = round(current feels-like)`, unconditionally — whatever the
rain section, the selection and the quiet-hours branch did. -/
theorem last_feels_like_updated (d : WeatherData) (hour : ℤ) (st st' : AlertState)
    (hok : (runInvocation d hour st).outcome = Except.ok st') :
    ∃ c f, d.current = some c ∧ c.feels_like = some f ∧
      st'.last_feels_like = some (pyRound f) := by
  cases hc : d.current with
  | none => simp [runInvocation, hc] at hok
  | some c =>
    cases ht : c.temp with
    | none => simp [runInvocation, hc, ht] at hok
    | some t =>
      cases hf : c.feels_like with
      | none => simp [runInvocation, hc, ht, hf] at hok
      | some f =>
        refine ⟨c, f, rfl, hf, ?_⟩
        simp [runInvocation, hc, ht, hf] at hok
        rw [← hok]

/-- Witness for C6 at a quiet-hours-suppressed invocation (prev = 6,
curr = 4, hour = 2): the run completes and stores the rounded reading 4. -/
theorem last_feels_like_updated_witness :
    ∃ c f, (⟨some ⟨some 4, some 4⟩, some []⟩ : WeatherData).current = some c ∧
      c.feels_like = some f ∧
      (⟨false, some 4⟩ : AlertState).last_feels_like = some (pyRound f) :=
  last_feels_like_updated ⟨some ⟨some 4, some 4⟩, some []⟩ 2 ⟨false, some 6⟩
    ⟨false, some 4⟩ rfl

/-- Claim C7: the rain detector fires exactly on the rising edge — one
notification and the flag set when rain is detected with the flag clear; no
notification with the flag staying set when rain persists; no notification
and the flag reset when no rain is detected. -/
theorem rain_rising_edge (hourly : List HourlyPoint) (st : AlertState) :
    (rainSoon hourly = true → st.rain_alerted = false →
      (rainStep hourly st).1.length = 1 ∧
      (rainStep hourly st).2.rain_alerted = true) ∧
    (rainSoon hourly = true → st.rain_alerted = true →
      (rainStep hourly st).1 = [] ∧
      (rainStep hourly st).2.rain_alerted = true) ∧
    (rainSoon hourly = false →
      (rainStep hourly st).1 = [] ∧
      (rainStep hourly st).2.rain_alerted = false) := by
  refine ⟨?_, ?_, ?_⟩
  · intro hs ha
    simp [rainStep, hs, ha]
  · intro hs ha
    simp [rainStep, hs, ha]
  · intro hs
    simp [rainStep, hs]

/-- Witness for C7: one rainy lookahead point, flag clear — one notification
fires and the flag becomes true. -/
theorem rain_rising_edge_witness :
    (rainStep [⟨0, true, []⟩] ⟨false, none⟩).1.length = 1 ∧
    (rainStep [⟨0, true, []⟩] ⟨false, none⟩).2.rain_alerted = true :=
  (rain_rising_edge [⟨0, true, []⟩] ⟨false, none⟩).1 rfl rfl

/-- The notifications of a run are the rain-section notifications followed by
whatever the cold section added (nothing, when the run aborted). -/
lemma sent_starts_with_rain (d : WeatherData) (hour : ℤ) (st : AlertState) :
    ∃ rest, (runInvocation d hour st).sent =
      (rainStep (d.hourly.getD []) st).1 ++ rest := by
  cases hc : d.current with
  | none => exact ⟨[], by simp [runInvocation, hc]⟩
  | some c =>
    cases ht : c.temp with
    | none => exact ⟨[], by simp [runInvocation, hc, ht]⟩
    | some t =>
      cases hf : c.feels_like with
      | none => exact ⟨[], by simp [runInvocation, hc, ht, hf]⟩
      | some f =>
        exact ⟨coldStep hour (pyRound t) (pyRound f)
            (rainStep (d.hourly.getD []) st).2.last_feels_like,
          by simp [runInvocation, hc, ht, hf]⟩

/-- A rising edge (rain detected, flag clear) posts a notification. -/
lemma rain_fire_nonempty (hourly : List HourlyPoint) (st : AlertState)
    (hr : rainSoon hourly = true) (ha : st.rain_alerted = false) :
    (rainStep hourly st).1 ≠ [] := by
  simp [rainStep, hr, ha]

/-- Counterexample to C8 as stated: a snapshot omitting the `hourly` field
does NOT abort the rain/cold invocation — `data.get("hourly", [])` defaults
to an empty window and the run completes (here prev = 6, curr = 4,
hour = 12). -/
theorem missing_hourly_completes_counterexample :
    (runInvocation ⟨some ⟨some 4, some 4⟩, none⟩ 12 ⟨false, some 6⟩).outcome =
      Except.ok ⟨false, some 4⟩ :=
  rfl

/-- Claim C8 amended: in the daily-summary program's fetch (`ow_onecall` in
`src/weather_push.py`) a response omitting `hourly` is a hard error; the
rain/cold program (`src/rain_alert.py`) instead treats a missing `hourly`
field exactly like an empty forecast window and proceeds. -/
theorem hourly_field_handling (r : OWReply) (d : WeatherData) (hour : ℤ)
    (st : AlertState)
    (hmiss : r.body.hourly = none) (hd : d.hourly = none) :
    (∃ e, ow_onecall r = Except.error e) ∧
    runInvocation d hour st = runInvocation ⟨d.current, some []⟩ hour st := by
  constructor
  · by_cases hs : r.status = 200
    · exact ⟨"OpenWeather response missing hourly", by simp [ow_onecall, hs, hmiss]⟩
    · exact ⟨"OpenWeather HTTP error", by simp [ow_onecall, hs]⟩
  · obtain ⟨cur, hly⟩ := d
    cases hly with
    | none => rfl
    | some l => simp at hd

/-- Witness for C8 (amended): status 200 with no `hourly` errors in
`ow_onecall`, while the alert run on the same body equals the run on an
empty window. -/
theorem hourly_field_handling_witness :
    (∃ e, ow_onecall ⟨200, ⟨some ⟨some 4, some 4⟩, none⟩⟩ = Except.error e) ∧
    runInvocation ⟨some ⟨some 4, some 4⟩, none⟩ 12 ⟨false, some 6⟩ =
      runInvocation ⟨some ⟨some 4, some 4⟩, some []⟩ 12 ⟨false, some 6⟩ :=
  hourly_field_handling ⟨200, ⟨some ⟨some 4, some 4⟩, none⟩⟩
    ⟨some ⟨some 4, some 4⟩, none⟩ 12 ⟨false, some 6⟩ rfl rfl

/-- Claim C9: the engine quantizes before all decisions — a whole invocation
depends on the raw current readings only through their rounded values; a
completed run persists the rounded feels-like; 0.4 (= `mkRat 2 5`) rounds to
0 and then counts as at-or-below the freezing threshold; and two readings
with equal rounded values never produce a crossing between them. -/
theorem temperature_quantization :
    (∀ t1 t2 f1 f2 : ℚ, pyRound t1 = pyRound t2 → pyRound f1 = pyRound f2 →
      ∀ (hly : Option (List HourlyPoint)) (hour : ℤ) (st : AlertState),
        runInvocation ⟨some ⟨some t1, some f1⟩, hly⟩ hour st =
          runInvocation ⟨some ⟨some t2, some f2⟩, hly⟩ hour st) ∧
    (∀ (d : WeatherData) (hour : ℤ) (st st' : AlertState)
        (c : CurrentConditions) (f : ℚ),
      d.current = some c → c.feels_like = some f →
      (runInvocation d hour st).outcome = Except.ok st' →
      st'.last_feels_like = some (pyRound f)) ∧
    ((mkRat 2 5 : ℚ) = 2 / 5 ∧ pyRound (mkRat 2 5) = 0 ∧
      crossed (some 1) (pyRound (mkRat 2 5)) 0 = true) ∧
    (∀ a b : ℚ, pyRound a = pyRound b →
      ∀ T : ℤ, crossed (some (pyRound a)) (pyRound b) T = false) := by
  refine ⟨?_, ?_, ⟨?_, by decide, by decide⟩, ?_⟩
  · intro t1 t2 f1 f2 h1 h2 hly hour st
    simp only [runInvocation]
    rw [h1, h2]
  · intro d hour st st' c f hc hf hok
    cases ht : c.temp with
    | none => simp [runInvocation, hc, ht] at hok
    | some t =>
      simp [runInvocation, hc, ht, hf] at hok
      rw [← hok]
  · rw [Rat.mkRat_eq_div]
    norm_num
  · intro a b hab T
    rw [hab]
    simp only [crossed, Bool.and_eq_false_iff, decide_eq_false_iff_not]
    omega

/-- Witness for C9: a raw feels-like of 0.4 gives the same full invocation as
a raw feels-like of 0. -/
theorem temperature_quantization_witness :
    runInvocation ⟨some ⟨some (mkRat 2 5), some (mkRat 2 5)⟩, some []⟩ 12
        ⟨false, some 1⟩ =
      runInvocation ⟨some ⟨some 0, some 0⟩, some []⟩ 12 ⟨false, some 1⟩ :=
  temperature_quantization.1 (mkRat 2 5) 0 (mkRat 2 5) 0 (by decide) (by decide)
    (some []) 12 ⟨false, some 1⟩

/-- Claim C10: the state is persisted only at the end of a successful run, so
an aborted run (here: missing current-conditions fields after the rain
section already ran and fired) leaves the on-disk state as loaded — the
in-memory `rain_alerted = true` is discarded — and a later run on the same
rain episode fires again. -/
theorem state_atomicity_on_abort (d d2 : WeatherData) (hour hour2 : ℤ)
    (st : AlertState) (e : String)
    (herr : (runInvocation d hour st).outcome = Except.error e)
    (hra : st.rain_alerted = false)
    (hr1 : rainSoon (d.hourly.getD []) = true)
    (hr2 : rainSoon (d2.hourly.getD []) = true) :
    persistedState st (runInvocation d hour st) = st ∧
    (rainStep (d.hourly.getD []) st).2.rain_alerted = true ∧
    (runInvocation d hour st).sent ≠ [] ∧
    (runInvocation d2 hour2 (persistedState st (runInvocation d hour st))).sent
      ≠ [] := by
  have hp : persistedState st (runInvocation d hour st) = st := by
    simp [persistedState, herr]
  refine ⟨hp, by simp [rainStep, hr1, hra], ?_, ?_⟩
  · obtain ⟨rest, hs⟩ := sent_starts_with_rain d hour st
    rw [hs]
    intro h
    exact rain_fire_nonempty _ _ hr1 hra (List.append_eq_nil.mp h).1
  · rw [hp]
    obtain ⟨rest2, hs2⟩ := sent_starts_with_rain d2 hour2 st
    rw [hs2]
    intro h
    exact rain_fire_nonempty _ _ hr2 hra (List.append_eq_nil.mp h).1

/-- Witness for C10: first run has rain but no `current` object (aborts after
firing), second run has rain and complete current conditions and fires
again. -/
theorem state_atomicity_on_abort_witness :
    persistedState ⟨false, none⟩
        (runInvocation ⟨none, some [⟨0, true, []⟩]⟩ 12 ⟨false, none⟩) =
      ⟨false, none⟩ ∧
    (rainStep [(⟨0, true, []⟩ : HourlyPoint)] ⟨false, none⟩).2.rain_alerted
      = true ∧
    (runInvocation ⟨none, some [⟨0, true, []⟩]⟩ 12 ⟨false, none⟩).sent ≠ [] ∧
    (runInvocation ⟨some ⟨some 4, some 4⟩, some [⟨0, true, []⟩]⟩ 12
        (persistedState ⟨false, none⟩
          (runInvocation ⟨none, some [⟨0, true, []⟩]⟩ 12 ⟨false, none⟩))).sent
      ≠ [] :=
  state_atomicity_on_abort ⟨none, some [⟨0, true, []⟩]⟩
    ⟨some ⟨some 4, some 4⟩, some [⟨0, true, []⟩]⟩ 12 12 ⟨false, none⟩
    "KeyError: current" rfl rfl rfl rfl

example : pyRound (mkRat 2 5) = 0 := by decide
example : pyRound (mkRat 1 2) = 0 := by decide
example : pyRound (mkRat 3 2) = 2 := by decide
example : pyRound (mkRat (-1) 2) = 0 := by decide
example : pyRound (mkRat (-3) 2) = -2 := by decide
example : pyRound (4 : ℚ) = 4 := by decide
example : sortedDesc COLD_THRESHOLDS =
    [ (15, "🧥 Cool Weather Alert", "A light jacket may be useful."),
      (10, "❄️ Cold Weather Alert", "Dress warmly if heading out."),
      (5, "🧊 Very Cold Alert", "Cold conditions expected. Bundle up."),
      (0, "🥶 Freezing Alert", "Risk of frost or icy surfaces.") ] := by rfl
example : selectAlert (some 16) (-3) =
    some (15, "🧥 Cool Weather Alert", "A light jacket may be useful.") := by rfl
example : selectAlert (some 6) 4 =
    some (5, "🧊 Very Cold Alert", "Cold conditions expected. Bundle up.") := by rfl
example : selectAlert none 4 = none := by rfl
example : coldStep 2 4 4 (some 6) = [] := by rfl
example : (runInvocation ⟨some ⟨some 4, some 4⟩, some []⟩ 2 ⟨false, some 6⟩).outcome
    = Except.ok ⟨false, some 4⟩ := by rfl
